import Mathlib

/-!
Verification development for a knowledge-distillation training notebook.

The source defines a `Distiller` object wrapping a trained teacher network
and a student network.  `compile` stores an optimizer, metrics, a supervised
student loss function, a distillation loss function, a weighting factor
`alpha` (default 0.1) and a softening `temperature` (default 3).
`train_step` runs both forward passes, combines the supervised loss with a
distillation loss on temperature-softened softmax distributions, and applies
one optimizer step to the student parameters only.  `test_step` evaluates the
student alone.  The notebook also normalizes the MNIST images to `[0,1]` and
reshapes them to rank-4 `(batch, 28, 28, 1)`.

The embedding below models float arithmetic by real arithmetic.  A batch of
logits with batch size `B` and `n` classes is a function `Fin B → Fin n → ℝ`.
Networks are modelled as functions of (parameters, training-mode flag, input);
the gradient tape and the optimizer step are abstract parameters of the
object, since their internals live in the external ML framework.
-/

noncomputable section

/-- Batch of per-class scores (logits or probabilities): `B` rows, `n` classes. -/
abbrev Logits (B nc : ℕ) : Type := Fin B → Fin nc → ℝ

/-- Softmax of one row of scores: `softmax z i = exp (z i) / Σ k, exp (z k)`.
This is the normalized-probability transform `tf.nn.softmax` applies to each
row when called with `axis=1`. -/
def softmax {nc : ℕ} (z : Fin nc → ℝ) : Fin nc → ℝ :=
  fun i => Real.exp (z i) / ∑ k, Real.exp (z k)

/-- Row-wise softmax of a batch of logits, modelling `tf.nn.softmax(m, axis=1)`. -/
def softmaxAxis1 {B nc : ℕ} (m : Logits B nc) : Logits B nc :=
  fun b => softmax (m b)

/-- Elementwise division of a batch of logits by a scalar, modelling
`predictions / temperature`. -/
def scaleByTemp {B nc : ℕ} (m : Logits B nc) (t : ℝ) : Logits B nc :=
  fun b i => m b i / t

/-- One Keras metric object: a name, its current scalar state, and the state
transition performed by `update_state` on a batch of labels and predictions. -/
structure KerasMetric (β γ : Type) where
  name : String
  state : ℝ
  updateState : ℝ → β → γ → ℝ

/-- Effect of `m.update_state(y, predictions)` on a metric object. -/
def KerasMetric.update {β γ : Type} (m : KerasMetric β γ) (y : β) (pred : γ) :
    KerasMetric β γ :=
  ⟨m.name, m.updateState m.state y pred, m.updateState⟩

/-- Value of `m.result()`. -/
def KerasMetric.result {β γ : Type} (m : KerasMetric β γ) : ℝ := m.state

/-- Insertion of one key into a Python dict modelled as an association list in
insertion order: an existing key keeps its position and gets the new value, a
fresh key is appended at the end. -/
def pyDictInsert (ps : List (String × ℝ)) (k : String) (v : ℝ) :
    List (String × ℝ) :=
  if ps.any (fun q => q.1 == k) then
    ps.map (fun q => if q.1 == k then (k, v) else q)
  else ps ++ [(k, v)]

/-- Python `d.update(new)`: insert the new pairs left to right. -/
def pyDictUpdate (ps newPairs : List (String × ℝ)) : List (String × ℝ) :=
  newPairs.foldl (fun acc q => pyDictInsert acc q.1 q.2) ps

/-- Python dict built from a list of pairs, such as the comprehension
`{m.name: m.result() for m in self.metrics}`. -/
def pyDict (ps : List (String × ℝ)) : List (String × ℝ) :=
  pyDictUpdate [] ps

/-- Keys of a modelled Python dict, in insertion order. -/
def pyKeys (ps : List (String × ℝ)) : List String :=
  ps.map Prod.fst

/-- The `Distiller` object.  `studentParams` / `teacherParams` are the weight
tensors owned by the two networks; `student` / `teacher` are the forward
passes as functions of (owned parameters, `training` flag, input batch).
`optimizer` models `optimizer.apply_gradients` as a parameter update from a
gradient value, and `gradientTape` models `tape.gradient(loss, vars)`:
it differentiates a scalar function of the watched variables at a point.
The remaining fields are exactly the attributes set by `compile`. -/
structure Distiller (α β P Q G : Type) (B nc : ℕ) where
  studentParams : P
  teacherParams : Q
  student : P → Bool → α → Logits B nc
  teacher : Q → Bool → α → Logits B nc
  optimizer : G → P → P
  metrics : List (KerasMetric β (Logits B nc))
  student_loss_fn : β → Logits B nc → ℝ
  distillation_loss_fn : Logits B nc → Logits B nc → ℝ
  alpha : ℝ
  temperature : ℝ
  gradientTape : (P → ℝ) → P → G

/-- The `Distiller.compile` override: stores the optimizer, metrics, loss
functions, `alpha` and `temperature` on the object.  The source declares the
defaults `alpha=0.1` and `temperature=3`. -/
def Distiller.compile {α β P Q G : Type} {B nc : ℕ} (d : Distiller α β P Q G B nc)
    (optimizer : G → P → P) (metrics : List (KerasMetric β (Logits B nc)))
    (student_loss_fn : β → Logits B nc → ℝ)
    (distillation_loss_fn : Logits B nc → Logits B nc → ℝ)
    (alpha : ℝ := 0.1) (temperature : ℝ := 3) : Distiller α β P Q G B nc :=
  { d with
    optimizer := optimizer
    metrics := metrics
    student_loss_fn := student_loss_fn
    distillation_loss_fn := distillation_loss_fn
    alpha := alpha
    temperature := temperature }

/-- The loss recorded on the gradient tape of `train_step`, as a function of
the student trainable variables `p`.  The teacher forward pass happens outside
the tape with `training=False` at the fixed stored teacher parameters, so `p`
enters only through the student forward pass, exactly as in the source:
`loss = self.alpha * student_loss + (1-self.alpha) * distillation_loss`. -/
def Distiller.tapeLoss {α β P Q G : Type} {B nc : ℕ} (d : Distiller α β P Q G B nc)
    (x : α) (y : β) (p : P) : ℝ :=
  let teacher_predictions := d.teacher d.teacherParams false x
  let student_predictions := d.student p true x
  let student_loss := d.student_loss_fn y student_predictions
  let distillation_loss := d.distillation_loss_fn
    (softmaxAxis1 (scaleByTemp teacher_predictions d.temperature))
    (softmaxAxis1 (scaleByTemp student_predictions d.temperature))
  d.alpha * student_loss + (1 - d.alpha) * distillation_loss

/-- Result of one training or evaluation step: the updated object and the
returned dict of performance values. -/
structure StepResult (α β P Q G : Type) (B nc : ℕ) where
  model : Distiller α β P Q G B nc
  results : List (String × ℝ)

/-- The `Distiller.train_step` override.  Teacher forward pass with
`training=False`; student forward pass with `training=True` inside the tape;
supervised and distillation losses; combined loss `alpha * student_loss +
(1-alpha) * distillation_loss`; gradients with respect to the student
trainable variables; one optimizer step on those variables; metric updates;
and the returned dict `{metric name: result} ∪ {student_loss,
distillation_loss}`. -/
def Distiller.train_step {α β P Q G : Type} {B nc : ℕ}
    (d : Distiller α β P Q G B nc) (data : α × β) : StepResult α β P Q G B nc :=
  let x := data.1
  let y := data.2
  let teacher_predictions := d.teacher d.teacherParams false x
  let student_predictions := d.student d.studentParams true x
  let student_loss := d.student_loss_fn y student_predictions
  let distillation_loss := d.distillation_loss_fn
    (softmaxAxis1 (scaleByTemp teacher_predictions d.temperature))
    (softmaxAxis1 (scaleByTemp student_predictions d.temperature))
  let trainable_vars := d.studentParams
  let gradients := d.gradientTape (d.tapeLoss x y) trainable_vars
  let newParams := d.optimizer gradients trainable_vars
  let updatedMetrics := d.metrics.map (fun m => m.update y student_predictions)
  let results := pyDictUpdate
    (pyDict (updatedMetrics.map (fun m => (m.name, m.result))))
    [("student_loss", student_loss), ("distillation_loss", distillation_loss)]
  { model := { d with studentParams := newParams, metrics := updatedMetrics }
    results := results }

/-- The `Distiller.test_step` override: student forward pass with
`training=False`, supervised loss against the true labels, metric updates, and
the returned dict `{metric name: result} ∪ {student_loss}`.  No parameters
are modified. -/
def Distiller.test_step {α β P Q G : Type} {B nc : ℕ}
    (d : Distiller α β P Q G B nc) (data : α × β) : StepResult α β P Q G B nc :=
  let x := data.1
  let y := data.2
  let y_prediction := d.student d.studentParams false x
  let student_loss := d.student_loss_fn y y_prediction
  let updatedMetrics := d.metrics.map (fun m => m.update y y_prediction)
  let results := pyDictUpdate
    (pyDict (updatedMetrics.map (fun m => (m.name, m.result))))
    [("student_loss", student_loss)]
  { model := { d with metrics := updatedMetrics }
    results := results }

/-- Exception-aware variant of the `Distiller` object, used to make the
error-propagation behaviour of the steps explicit.  Each call into the
underlying ML framework (a forward pass, a loss evaluation, the gradient
computation, the optimizer application) may raise an exception of type `ε`
(e.g. a shape mismatch); the pure fields are as in `Distiller`.  Metric
updates are kept pure.  Neither step in the source contains a `try`/`except`,
a validation branch, or a retry, so the steps below are straight-line monadic
code with no handler. -/
structure ExnDistiller (ε α β P Q G : Type) (B nc : ℕ) where
  studentParams : P
  teacherParams : Q
  student : P → Bool → α → Except ε (Logits B nc)
  teacher : Q → Bool → α → Except ε (Logits B nc)
  optimizer : G → P → Except ε P
  metrics : List (KerasMetric β (Logits B nc))
  student_loss_fn : β → Logits B nc → Except ε ℝ
  distillation_loss_fn : Logits B nc → Logits B nc → Except ε ℝ
  alpha : ℝ
  temperature : ℝ
  gradientTape : (P → Except ε ℝ) → P → Except ε G

/-- Tape loss of the exception-aware model, as a fallible function of the
student trainable variables. -/
def ExnDistiller.tapeLoss {ε α β P Q G : Type} {B nc : ℕ}
    (d : ExnDistiller ε α β P Q G B nc) (x : α) (y : β) (p : P) : Except ε ℝ := do
  let teacher_predictions ← d.teacher d.teacherParams false x
  let student_predictions ← d.student p true x
  let student_loss ← d.student_loss_fn y student_predictions
  let distillation_loss ← d.distillation_loss_fn
    (softmaxAxis1 (scaleByTemp teacher_predictions d.temperature))
    (softmaxAxis1 (scaleByTemp student_predictions d.temperature))
  pure (d.alpha * student_loss + (1 - d.alpha) * distillation_loss)

/-- `train_step` in the exception-aware model: the same straight-line
computation as `Distiller.train_step`, with every framework call allowed to
raise; there is no handling branch anywhere. -/
def ExnDistiller.train_step {ε α β P Q G : Type} {B nc : ℕ}
    (d : ExnDistiller ε α β P Q G B nc) (data : α × β) :
    Except ε (ExnDistiller ε α β P Q G B nc × List (String × ℝ)) := do
  let x := data.1
  let y := data.2
  let teacher_predictions ← d.teacher d.teacherParams false x
  let student_predictions ← d.student d.studentParams true x
  let student_loss ← d.student_loss_fn y student_predictions
  let distillation_loss ← d.distillation_loss_fn
    (softmaxAxis1 (scaleByTemp teacher_predictions d.temperature))
    (softmaxAxis1 (scaleByTemp student_predictions d.temperature))
  let gradients ← d.gradientTape (d.tapeLoss x y) d.studentParams
  let newParams ← d.optimizer gradients d.studentParams
  let updatedMetrics := d.metrics.map (fun m => m.update y student_predictions)
  let results := pyDictUpdate
    (pyDict (updatedMetrics.map (fun m => (m.name, m.result))))
    [("student_loss", student_loss), ("distillation_loss", distillation_loss)]
  pure ({ d with studentParams := newParams, metrics := updatedMetrics }, results)

/-- `test_step` in the exception-aware model: straight-line, no handler. -/
def ExnDistiller.test_step {ε α β P Q G : Type} {B nc : ℕ}
    (d : ExnDistiller ε α β P Q G B nc) (data : α × β) :
    Except ε (ExnDistiller ε α β P Q G B nc × List (String × ℝ)) := do
  let x := data.1
  let y := data.2
  let y_prediction ← d.student d.studentParams false x
  let student_loss ← d.student_loss_fn y y_prediction
  let updatedMetrics := d.metrics.map (fun m => m.update y y_prediction)
  let results := pyDictUpdate
    (pyDict (updatedMetrics.map (fun m => (m.name, m.result))))
    [("student_loss", student_loss)]
  pure ({ d with metrics := updatedMetrics }, results)

/-- The exceptions the framework can raise during `train_step`, read off from
the calls the source makes, in order: teacher forward pass, student forward
pass, student loss, distillation loss on the softened distributions, gradient
computation, optimizer application.  Each disjunct records the exception of
one call, its arguments being the values produced by the earlier calls. -/
def ExnDistiller.trainStepRaises {ε α β P Q G : Type} {B nc : ℕ}
    (d : ExnDistiller ε α β P Q G B nc) (x : α) (y : β) (e : ε) : Prop :=
  d.teacher d.teacherParams false x = Except.error e ∨
  d.student d.studentParams true x = Except.error e ∨
  (∃ sp, d.student d.studentParams true x = Except.ok sp ∧
    d.student_loss_fn y sp = Except.error e) ∨
  (∃ tp sp, d.teacher d.teacherParams false x = Except.ok tp ∧
    d.student d.studentParams true x = Except.ok sp ∧
    d.distillation_loss_fn
      (softmaxAxis1 (scaleByTemp tp d.temperature))
      (softmaxAxis1 (scaleByTemp sp d.temperature)) = Except.error e) ∨
  d.gradientTape (d.tapeLoss x y) d.studentParams = Except.error e ∨
  (∃ g, d.gradientTape (d.tapeLoss x y) d.studentParams = Except.ok g ∧
    d.optimizer g d.studentParams = Except.error e)

/-- The exceptions the framework can raise during `test_step`: student
forward pass, then student loss on its output. -/
def ExnDistiller.testStepRaises {ε α β P Q G : Type} {B nc : ℕ}
    (d : ExnDistiller ε α β P Q G B nc) (x : α) (y : β) (e : ε) : Prop :=
  d.student d.studentParams false x = Except.error e ∨
  (∃ yp, d.student d.studentParams false x = Except.ok yp ∧
    d.student_loss_fn y yp = Except.error e)

/-- Normalization of one 8-bit pixel value, modelling
`x.astype('float32') / 255.0`. -/
def normalizePixel (p : ℕ) : ℝ := (p : ℝ) / 255

/-- Dataset preprocessing: every pixel of every image is divided by 255 and
the array of shape `(batch, 28, 28)` is reshaped to `(batch, 28, 28, 1)` by
wrapping each pixel in a trailing length-1 axis, modelling
`np.reshape(x.astype('float32') / 255.0, (-1, 28, 28, 1))`. -/
def preprocessImages (xs : List (List (List ℕ))) : List (List (List (List ℝ))) :=
  xs.map (fun im => im.map (fun row => row.map (fun p => [normalizePixel p])))

/-- A rank-3 nested list has shape `(b, r, c)`. -/
def hasShape3 (xs : List (List (List ℕ))) (b r c : ℕ) : Prop :=
  xs.length = b ∧ ∀ im ∈ xs, im.length = r ∧ ∀ row ∈ im, row.length = c

/-- A rank-4 nested list has shape `(b, r, c, ch)`. -/
def hasShape4 (xs : List (List (List (List ℝ)))) (b r c ch : ℕ) : Prop :=
  xs.length = b ∧ ∀ im ∈ xs, im.length = r ∧
    ∀ row ∈ im, row.length = c ∧ ∀ pix ∈ row, pix.length = ch

/-- Every raw pixel of a rank-3 dataset is a valid 8-bit value. -/
def pixelsAreBytes (xs : List (List (List ℕ))) : Prop :=
  ∀ im ∈ xs, ∀ row ∈ im, ∀ p ∈ row, p ≤ 255

/-- Every entry of a preprocessed rank-4 dataset lies in `[0, 1]`. -/
def entriesInUnitInterval (xs : List (List (List (List ℝ)))) : Prop :=
  ∀ im ∈ xs, ∀ row ∈ im, ∀ pix ∈ row, ∀ q ∈ pix, 0 ≤ q ∧ q ≤ 1

/-- Concrete metric object, an accuracy-style tracker, used to instantiate
the theorems below at a closed point. -/
def exampleMetric : KerasMetric Unit (Logits 1 2) :=
  ⟨"sparse_categorical_accuracy", 0, fun s _ _ => s⟩

/-- Concrete distiller object over trivial parameter and input types, used to
instantiate the theorems below at a closed point. -/
def exampleDistiller : Distiller Unit Unit Unit Unit Unit 1 2 :=
  { studentParams := ()
    teacherParams := ()
    student := fun _ _ _ _ _ => 0
    teacher := fun _ _ _ _ _ => 0
    optimizer := fun _ p => p
    metrics := [exampleMetric]
    student_loss_fn := fun _ _ => 0
    distillation_loss_fn := fun _ _ => 0
    alpha := 1 / 10
    temperature := 3
    gradientTape := fun _ _ => () }

/-- Concrete batch of logits with one row and two classes. -/
def exampleLogits : Logits 1 2 := fun _ _ => 0

/-- Concrete raw dataset: one 28-by-28 image with every pixel equal to 200. -/
def exampleRawImages : List (List (List ℕ)) :=
  [List.replicate 28 (List.replicate 28 200)]

end

/-- The denominator of a softmax row is positive as soon as the row has at
least one entry. -/
theorem sum_exp_pos {nc : ℕ} (z : Fin nc → ℝ) (i : Fin nc) :
    0 < ∑ k, Real.exp (z k) :=
  Finset.sum_pos (fun k _ => Real.exp_pos (z k)) ⟨i, Finset.mem_univ i⟩

/-- Each softmax row sums to 1 when there is at least one class. -/
theorem softmax_sum_one {nc : ℕ} (z : Fin nc → ℝ) (h : 0 < nc) :
    (∑ i, softmax z i) = 1 := by
  have hS : 0 < ∑ k, Real.exp (z k) := sum_exp_pos z ⟨0, h⟩
  simp only [softmax]
  rw [← Finset.sum_div]
  exact div_self (ne_of_gt hS)

/-- Softmax entries are nonnegative. -/
theorem softmax_nonneg {nc : ℕ} (z : Fin nc → ℝ) (i : Fin nc) :
    0 ≤ softmax z i :=
  div_nonneg (Real.exp_pos (z i)).le (sum_exp_pos z i).le

/-- Logarithm of a softmax entry. -/
theorem log_softmax {nc : ℕ} (z : Fin nc → ℝ) (i : Fin nc) :
    Real.log (softmax z i) = z i - Real.log (∑ k, Real.exp (z k)) := by
  simp only [softmax]
  rw [Real.log_div (Real.exp_ne_zero _) (ne_of_gt (sum_exp_pos z i)), Real.log_exp]

/-- Inserting a fresh key into a modelled Python dict appends the pair. -/
theorem pyDictInsert_fresh (ps : List (String × ℝ)) (k : String) (v : ℝ)
    (h : k ∉ ps.map Prod.fst) : pyDictInsert ps k v = ps ++ [(k, v)] := by
  have hc : ps.any (fun q => q.1 == k) = false := by
    rw [List.any_eq_false]
    intro q hq
    simp only [beq_iff_eq]
    exact fun hk => h (hk ▸ List.mem_map_of_mem Prod.fst hq)
  simp [pyDictInsert, hc]

/-- Updating a modelled Python dict with pairwise-fresh keys appends them. -/
theorem pyDictUpdate_of_nodup :
    ∀ (newPairs ps : List (String × ℝ)),
      (ps.map Prod.fst ++ newPairs.map Prod.fst).Nodup →
      pyDictUpdate ps newPairs = ps ++ newPairs := by
  intro newPairs
  induction newPairs with
  | nil => intro ps _; simp [pyDictUpdate]
  | cons q t ih =>
    intro ps h
    have hq : q.1 ∉ ps.map Prod.fst := fun hmem =>
      (List.nodup_append.mp h).2.2 hmem (by simp)
    have h2 : ((ps ++ [q]).map Prod.fst ++ t.map Prod.fst).Nodup := by
      simpa [List.append_assoc] using h
    have step : pyDictUpdate ps (q :: t) = pyDictUpdate (ps ++ [q]) t := by
      show pyDictUpdate (pyDictInsert ps q.1 q.2) t = pyDictUpdate (ps ++ [q]) t
      rw [pyDictInsert_fresh ps q.1 q.2 hq]
    rw [step, ih (ps ++ [q]) h2]
    simp

/-- A modelled Python dict built from pairs with distinct keys is those pairs. -/
theorem pyDict_of_nodup (ps : List (String × ℝ)) (h : (ps.map Prod.fst).Nodup) :
    pyDict ps = ps := by
  have := pyDictUpdate_of_nodup ps [] (by simpa using h)
  simpa [pyDict] using this



/-- C1: for every labeled batch, the total loss computed by
`Distiller.train_step` (the loss recorded on the gradient tape, whose
gradients drive the optimizer step) equals `alpha * student_loss_fn(y,
student_predictions) + (1 - alpha) * distillation_loss_fn(softened_teacher,
softened_student)`, with `alpha` and `distillation_loss_fn` read from the
fields stored by `compile`. -/
theorem c1_train_step_total_loss {α β P Q G : Type} {B nc : ℕ}
    (d : Distiller α β P Q G B nc) (x : α) (y : β) :
    d.tapeLoss x y d.studentParams =
      d.alpha * d.student_loss_fn y (d.student d.studentParams true x) +
        (1 - d.alpha) * d.distillation_loss_fn
          (softmaxAxis1 (scaleByTemp (d.teacher d.teacherParams false x) d.temperature))
          (softmaxAxis1 (scaleByTemp (d.student d.studentParams true x) d.temperature))
    ∧ (d.train_step (x, y)).model.studentParams =
        d.optimizer (d.gradientTape (d.tapeLoss x y) d.studentParams) d.studentParams :=
  ⟨rfl, rfl⟩

/-- C3: `Distiller.train_step` updates only the student parameters.  The
teacher network and its parameters, both loss functions, `alpha`,
`temperature`, the optimizer and the tape are all unchanged; the new student
parameters are exactly one optimizer step on the gradients of the tape loss
with respect to the student trainable variables; and the tape loss varies
only in the student parameters `p`, its teacher forward pass being run once
with `training := false` at the fixed stored teacher parameters while the
student forward pass runs with `training := true`. -/
theorem c3_train_step_updates_student_only {α β P Q G : Type} {B nc : ℕ}
    (d : Distiller α β P Q G B nc) (x : α) (y : β) :
    (d.train_step (x, y)).model.teacherParams = d.teacherParams
    ∧ (d.train_step (x, y)).model.teacher = d.teacher
    ∧ (d.train_step (x, y)).model.student = d.student
    ∧ (d.train_step (x, y)).model.student_loss_fn = d.student_loss_fn
    ∧ (d.train_step (x, y)).model.distillation_loss_fn = d.distillation_loss_fn
    ∧ (d.train_step (x, y)).model.alpha = d.alpha
    ∧ (d.train_step (x, y)).model.temperature = d.temperature
    ∧ (d.train_step (x, y)).model.optimizer = d.optimizer
    ∧ (d.train_step (x, y)).model.gradientTape = d.gradientTape
    ∧ (d.train_step (x, y)).model.studentParams =
        d.optimizer (d.gradientTape (d.tapeLoss x y) d.studentParams) d.studentParams
    ∧ d.tapeLoss x y = (fun p =>
        d.alpha * d.student_loss_fn y (d.student p true x) +
          (1 - d.alpha) * d.distillation_loss_fn
            (softmaxAxis1 (scaleByTemp (d.teacher d.teacherParams false x) d.temperature))
            (softmaxAxis1 (scaleByTemp (d.student p true x) d.temperature))) :=
  ⟨rfl, rfl, rfl, rfl, rfl, rfl, rfl, rfl, rfl, rfl, rfl⟩

/-- C9: `Distiller.test_step` evaluates the student alone: no parameters of
either network change, the returned student loss is `student_loss_fn` applied
to the true labels and the student forward pass run with `training := false`,
and the outcome is unchanged under arbitrary replacement of the teacher, its
parameters, the distillation loss function, `alpha`, `temperature`, the
optimizer and the tape, so the step never invokes any of them. -/
theorem c9_test_step_student_only {α β P Q G : Type} {B nc : ℕ}
    (d : Distiller α β P Q G B nc) (x : α) (y : β) :
    (d.test_step (x, y)).model.studentParams = d.studentParams
    ∧ (d.test_step (x, y)).model.teacherParams = d.teacherParams
    ∧ (d.test_step (x, y)).model.student = d.student
    ∧ (d.test_step (x, y)).model.teacher = d.teacher
    ∧ (d.test_step (x, y)).results =
        pyDictUpdate
          (pyDict ((d.metrics.map
            (fun m => m.update y (d.student d.studentParams false x))).map
              (fun m => (m.name, m.result))))
          [("student_loss", d.student_loss_fn y (d.student d.studentParams false x))]
    ∧ (∀ (q : Q) (teacher2 : Q → Bool → α → Logits B nc)
        (dlf2 : Logits B nc → Logits B nc → ℝ) (a2 t2 : ℝ)
        (opt2 : G → P → P) (tape2 : (P → ℝ) → P → G),
        (({ d with
            teacherParams := q
            teacher := teacher2
            distillation_loss_fn := dlf2
            alpha := a2
            temperature := t2
            optimizer := opt2
            gradientTape := tape2 } : Distiller α β P Q G B nc).test_step
              (x, y)).results = (d.test_step (x, y)).results) :=
  ⟨rfl, rfl, rfl, rfl, rfl, fun _ _ _ _ _ _ _ => rfl⟩

/-- C10: `Distiller.compile` stores the supplied optimizer, metrics, student
loss, distillation loss, `alpha` and `temperature` unchanged (leaving the
networks and parameters untouched), defaults to `alpha = 0.1` and
`temperature = 3` when those arguments are omitted, and every subsequent
`train_step` / `test_step` uses exactly the stored values: the tape loss of
the compiled object is built from the supplied `alpha`, `temperature` and
loss functions, the optimizer step uses the supplied optimizer, and
`test_step` records the supplied student loss. -/
theorem c10_compile_stores_arguments {α β P Q G : Type} {B nc : ℕ}
    (d : Distiller α β P Q G B nc) (opt : G → P → P)
    (mets : List (KerasMetric β (Logits B nc)))
    (slf : β → Logits B nc → ℝ) (dlf : Logits B nc → Logits B nc → ℝ)
    (a t : ℝ) (x : α) (y : β) (p : P) :
    (d.compile opt mets slf dlf a t).optimizer = opt
    ∧ (d.compile opt mets slf dlf a t).metrics = mets
    ∧ (d.compile opt mets slf dlf a t).student_loss_fn = slf
    ∧ (d.compile opt mets slf dlf a t).distillation_loss_fn = dlf
    ∧ (d.compile opt mets slf dlf a t).alpha = a
    ∧ (d.compile opt mets slf dlf a t).temperature = t
    ∧ (d.compile opt mets slf dlf a t).studentParams = d.studentParams
    ∧ (d.compile opt mets slf dlf a t).teacherParams = d.teacherParams
    ∧ (d.compile opt mets slf dlf a t).student = d.student
    ∧ (d.compile opt mets slf dlf a t).teacher = d.teacher
    ∧ (d.compile opt mets slf dlf).alpha = 0.1
    ∧ (d.compile opt mets slf dlf).temperature = 3
    ∧ (d.compile opt mets slf dlf a t).tapeLoss x y p =
        a * slf y (d.student p true x) +
          (1 - a) * dlf
            (softmaxAxis1 (scaleByTemp (d.teacher d.teacherParams false x) t))
            (softmaxAxis1 (scaleByTemp (d.student p true x) t))
    ∧ ((d.compile opt mets slf dlf a t).train_step (x, y)).model.studentParams =
        opt ((d.compile opt mets slf dlf a t).gradientTape
          ((d.compile opt mets slf dlf a t).tapeLoss x y) d.studentParams)
          d.studentParams
    ∧ ((d.compile opt mets slf dlf a t).test_step (x, y)).results =
        pyDictUpdate
          (pyDict ((mets.map
            (fun m => m.update y (d.student d.studentParams false x))).map
              (fun m => (m.name, m.result))))
          [("student_loss", slf y (d.student d.studentParams false x))] :=
  ⟨rfl, rfl, rfl, rfl, rfl, rfl, rfl, rfl, rfl, rfl, rfl, rfl, rfl, rfl, rfl⟩

/-- C4 counterexample: `compile` performs no validation, so a call with
`alpha = 2` and `temperature = 1` stores an `alpha` outside `[0, 1]`; the
claimed invariant fails for this call of `compile`. -/
theorem c4_counterexample :
    ¬(0 ≤ (exampleDistiller.compile (fun _ p => p) [] (fun _ _ => 0)
          (fun _ _ => 0) 2 1).alpha ∧
      (exampleDistiller.compile (fun _ p => p) [] (fun _ _ => 0)
          (fun _ _ => 0) 2 1).alpha ≤ 1 ∧
      0 < (exampleDistiller.compile (fun _ p => p) [] (fun _ _ => 0)
          (fun _ _ => 0) 2 1).temperature) := by
  intro h
  have h21 : (2 : ℝ) ≤ 1 := h.2.1
  norm_num at h21

/-- C4 amended: `compile` stores `alpha` and `temperature` exactly as
supplied, without validation.  The invariant `alpha ∈ [0, 1]` and
`temperature > 0` therefore holds after `compile` exactly when the supplied
values satisfy it, and it holds unconditionally for the declared defaults
`alpha = 0.1`, `temperature = 3`. -/
theorem c4_compile_invariant_if_arguments_valid {α β P Q G : Type} {B nc : ℕ}
    (d : Distiller α β P Q G B nc) (opt : G → P → P)
    (mets : List (KerasMetric β (Logits B nc)))
    (slf : β → Logits B nc → ℝ) (dlf : Logits B nc → Logits B nc → ℝ)
    (a t : ℝ) (ha0 : 0 ≤ a) (ha1 : a ≤ 1) (ht : 0 < t) :
    (0 ≤ (d.compile opt mets slf dlf a t).alpha
      ∧ (d.compile opt mets slf dlf a t).alpha ≤ 1
      ∧ 0 < (d.compile opt mets slf dlf a t).temperature)
    ∧ (0 ≤ (d.compile opt mets slf dlf).alpha
      ∧ (d.compile opt mets slf dlf).alpha ≤ 1
      ∧ 0 < (d.compile opt mets slf dlf).temperature) :=
  ⟨⟨ha0, ha1, ht⟩,
    show (0 : ℝ) ≤ 0.1 by norm_num,
    show (0.1 : ℝ) ≤ 1 by norm_num,
    show (0 : ℝ) < 3 by norm_num⟩

/-- Witness for the amended C4 at the concrete object and the notebook's own
hyperparameters `alpha = 0.1`, `temperature = 10`. -/
theorem c4_compile_invariant_witness :
    (0 ≤ (1 / 10 : ℝ) ∧ (1 / 10 : ℝ) ≤ 1 ∧ (0 : ℝ) < 10)
    ∧ ((0 ≤ (exampleDistiller.compile (fun _ p => p) [exampleMetric]
          (fun _ _ => 0) (fun _ _ => 0) (1 / 10) 10).alpha
      ∧ (exampleDistiller.compile (fun _ p => p) [exampleMetric]
          (fun _ _ => 0) (fun _ _ => 0) (1 / 10) 10).alpha ≤ 1
      ∧ 0 < (exampleDistiller.compile (fun _ p => p) [exampleMetric]
          (fun _ _ => 0) (fun _ _ => 0) (1 / 10) 10).temperature)
    ∧ (0 ≤ (exampleDistiller.compile (fun _ p => p) [exampleMetric]
          (fun _ _ => 0) (fun _ _ => 0)).alpha
      ∧ (exampleDistiller.compile (fun _ p => p) [exampleMetric]
          (fun _ _ => 0) (fun _ _ => 0)).alpha ≤ 1
      ∧ 0 < (exampleDistiller.compile (fun _ p => p) [exampleMetric]
          (fun _ _ => 0) (fun _ _ => 0)).temperature)) :=
  ⟨⟨by norm_num, by norm_num, by norm_num⟩,
    c4_compile_invariant_if_arguments_valid exampleDistiller (fun _ p => p)
      [exampleMetric] (fun _ _ => 0) (fun _ _ => 0) (1 / 10) 10
      (by norm_num) (by norm_num) (by norm_num)⟩

/-- C2: in `train_step` the distillation loss is computed on
temperature-softened distributions of both networks.  The returned dict
records `distillation_loss_fn` applied to the row-wise softmax of the
teacher logits divided by the stored temperature as its first (target)
argument and the softened student logits as its second (prediction)
argument; and, as soon as there is at least one class, every softened row of
either network is a probability distribution: nonnegative entries summing
to 1. -/
theorem c2_distillation_on_softened_distributions {α β P Q G : Type} {B nc : ℕ}
    (d : Distiller α β P Q G B nc) (x : α) (y : β) (h : 0 < nc) :
    (d.train_step (x, y)).results =
      pyDictUpdate
        (pyDict ((d.metrics.map
          (fun m => m.update y (d.student d.studentParams true x))).map
            (fun m => (m.name, m.result))))
        [("student_loss", d.student_loss_fn y (d.student d.studentParams true x)),
          ("distillation_loss", d.distillation_loss_fn
            (softmaxAxis1 (scaleByTemp (d.teacher d.teacherParams false x) d.temperature))
            (softmaxAxis1 (scaleByTemp (d.student d.studentParams true x) d.temperature)))]
    ∧ (∀ b, (∑ i, softmaxAxis1
        (scaleByTemp (d.teacher d.teacherParams false x) d.temperature) b i) = 1)
    ∧ (∀ b, (∑ i, softmaxAxis1
        (scaleByTemp (d.student d.studentParams true x) d.temperature) b i) = 1)
    ∧ (∀ b i, 0 ≤ softmaxAxis1
        (scaleByTemp (d.teacher d.teacherParams false x) d.temperature) b i)
    ∧ (∀ b i, 0 ≤ softmaxAxis1
        (scaleByTemp (d.student d.studentParams true x) d.temperature) b i) :=
  ⟨rfl,
    fun b => softmax_sum_one
      (scaleByTemp (d.teacher d.teacherParams false x) d.temperature b) h,
    fun b => softmax_sum_one
      (scaleByTemp (d.student d.studentParams true x) d.temperature b) h,
    fun b i => softmax_nonneg
      (scaleByTemp (d.teacher d.teacherParams false x) d.temperature b) i,
    fun b i => softmax_nonneg
      (scaleByTemp (d.student d.studentParams true x) d.temperature b) i⟩

/-- Witness for C2 at the concrete object with two classes. -/
theorem c2_distillation_witness :
    0 < 2
    ∧ ((exampleDistiller.train_step ((), ())).results =
      pyDictUpdate
        (pyDict ((exampleDistiller.metrics.map
          (fun m => m.update ()
            (exampleDistiller.student exampleDistiller.studentParams true ()))).map
            (fun m => (m.name, m.result))))
        [("student_loss", exampleDistiller.student_loss_fn ()
            (exampleDistiller.student exampleDistiller.studentParams true ())),
          ("distillation_loss", exampleDistiller.distillation_loss_fn
            (softmaxAxis1 (scaleByTemp
              (exampleDistiller.teacher exampleDistiller.teacherParams false ())
              exampleDistiller.temperature))
            (softmaxAxis1 (scaleByTemp
              (exampleDistiller.student exampleDistiller.studentParams true ())
              exampleDistiller.temperature)))]
    ∧ (∀ b, (∑ i, softmaxAxis1
        (scaleByTemp (exampleDistiller.teacher exampleDistiller.teacherParams false ())
          exampleDistiller.temperature) b i) = 1)
    ∧ (∀ b, (∑ i, softmaxAxis1
        (scaleByTemp (exampleDistiller.student exampleDistiller.studentParams true ())
          exampleDistiller.temperature) b i) = 1)
    ∧ (∀ b i, 0 ≤ softmaxAxis1
        (scaleByTemp (exampleDistiller.teacher exampleDistiller.teacherParams false ())
          exampleDistiller.temperature) b i)
    ∧ (∀ b i, 0 ≤ softmaxAxis1
        (scaleByTemp (exampleDistiller.student exampleDistiller.studentParams true ())
          exampleDistiller.temperature) b i)) :=
  ⟨by norm_num,
    c2_distillation_on_softened_distributions exampleDistiller () () (by norm_num)⟩

/-- C5: after preprocessing, the dataset is rank-4 of shape
`(batch, 28, 28, 1)` with the batch dimension preserved from the loaded
data, and — since the loaded pixels are 8-bit values in `[0, 255]` divided
by 255 — every entry lies in `[0, 1]`. -/
theorem c5_preprocessing_normalizes_and_reshapes
    (xs : List (List (List ℕ))) (b : ℕ)
    (hshape : hasShape3 xs b 28 28) (hpix : pixelsAreBytes xs) :
    (preprocessImages xs).length = xs.length
    ∧ hasShape4 (preprocessImages xs) b 28 28 1
    ∧ entriesInUnitInterval (preprocessImages xs) := by
  obtain ⟨hlen, hrest⟩ := hshape
  refine ⟨List.length_map xs _, ⟨by simpa [preprocessImages] using hlen, ?_⟩, ?_⟩
  · intro im him
    obtain ⟨im0, him0, rfl⟩ := List.mem_map.mp him
    obtain ⟨hlen0, hrows0⟩ := hrest im0 him0
    refine ⟨by simpa using hlen0, ?_⟩
    intro row hrow
    obtain ⟨row0, hrow0, rfl⟩ := List.mem_map.mp hrow
    refine ⟨by simpa using (hrows0 row0 hrow0), ?_⟩
    intro pix hpixmem
    obtain ⟨p, _, rfl⟩ := List.mem_map.mp hpixmem
    rfl
  · intro im him
    obtain ⟨im0, him0, rfl⟩ := List.mem_map.mp him
    intro row hrow
    obtain ⟨row0, hrow0, rfl⟩ := List.mem_map.mp hrow
    intro pix hpixmem
    obtain ⟨p, hp, rfl⟩ := List.mem_map.mp hpixmem
    intro q hq
    have hq1 : q = normalizePixel p := by simpa using hq
    subst hq1
    have hp255 : p ≤ 255 := hpix im0 him0 row0 hrow0 p hp
    constructor
    · exact div_nonneg (Nat.cast_nonneg p) (by norm_num)
    · rw [normalizePixel, div_le_one (by norm_num)]
      exact_mod_cast hp255

/-- Witness for C5 at a concrete one-image dataset of constant pixel 200. -/
theorem c5_preprocessing_witness :
    (hasShape3 exampleRawImages 1 28 28 ∧ pixelsAreBytes exampleRawImages)
    ∧ ((preprocessImages exampleRawImages).length = exampleRawImages.length
      ∧ hasShape4 (preprocessImages exampleRawImages) 1 28 28 1
      ∧ entriesInUnitInterval (preprocessImages exampleRawImages)) :=
  ⟨⟨by simp [hasShape3, exampleRawImages, List.mem_replicate],
      by simp [pixelsAreBytes, exampleRawImages, List.mem_replicate]⟩,
    c5_preprocessing_normalizes_and_reshapes exampleRawImages 1
      (by simp [hasShape3, exampleRawImages, List.mem_replicate])
      (by simp [pixelsAreBytes, exampleRawImages, List.mem_replicate])⟩

/-- Log-odds of a temperature-softened batch: the common softmax denominator
cancels, leaving the difference of the scaled logits. -/
theorem log_odds_softened {B nc : ℕ} (m : Logits B nc) (b : Fin B)
    (i j : Fin nc) (t : ℝ) :
    Real.log (softmaxAxis1 (scaleByTemp m t) b i) -
      Real.log (softmaxAxis1 (scaleByTemp m t) b j) = m b i / t - m b j / t := by
  show Real.log (softmax (scaleByTemp m t b) i) -
    Real.log (softmax (scaleByTemp m t b) j) = _
  rw [log_softmax, log_softmax]
  simp only [scaleByTemp]
  ring

/-- At a coordinate carrying a maximal logit, raising the temperature cannot
increase the softmax probability. -/
theorem softmax_temp_at_max {nc : ℕ} (z : Fin nc → ℝ) (i : Fin nc)
    (t1 t2 : ℝ) (h1 : 0 < t1) (h12 : t1 ≤ t2) (hmax : ∀ k, z k ≤ z i) :
    softmax (fun k => z k / t2) i ≤ softmax (fun k => z k / t1) i := by
  have ht2 : 0 < t2 := lt_of_lt_of_le h1 h12
  have hS1 : 0 < ∑ k, Real.exp (z k / t1) := sum_exp_pos (fun k => z k / t1) i
  have hS2 : 0 < ∑ k, Real.exp (z k / t2) := sum_exp_pos (fun k => z k / t2) i
  simp only [softmax]
  rw [div_le_div_iff₀ hS2 hS1, Finset.mul_sum, Finset.mul_sum]
  apply Finset.sum_le_sum
  intro k _
  rw [← Real.exp_add, ← Real.exp_add, Real.exp_le_exp]
  have e1 : 0 ≤ (z i - z k) * (t2 - t1) :=
    mul_nonneg (sub_nonneg.mpr (hmax k)) (sub_nonneg.mpr h12)
  rw [div_add_div _ _ ht2.ne' h1.ne', div_add_div _ _ h1.ne' ht2.ne',
    div_le_div_iff₀ (mul_pos ht2 h1) (mul_pos h1 ht2)]
  nlinarith [mul_nonneg e1 (mul_pos h1 ht2).le]

/-- At a coordinate carrying a minimal logit, raising the temperature cannot
decrease the softmax probability. -/
theorem softmax_temp_at_min {nc : ℕ} (z : Fin nc → ℝ) (i : Fin nc)
    (t1 t2 : ℝ) (h1 : 0 < t1) (h12 : t1 ≤ t2) (hmin : ∀ k, z i ≤ z k) :
    softmax (fun k => z k / t1) i ≤ softmax (fun k => z k / t2) i := by
  have ht2 : 0 < t2 := lt_of_lt_of_le h1 h12
  have hS1 : 0 < ∑ k, Real.exp (z k / t1) := sum_exp_pos (fun k => z k / t1) i
  have hS2 : 0 < ∑ k, Real.exp (z k / t2) := sum_exp_pos (fun k => z k / t2) i
  simp only [softmax]
  rw [div_le_div_iff₀ hS1 hS2, Finset.mul_sum, Finset.mul_sum]
  apply Finset.sum_le_sum
  intro k _
  rw [← Real.exp_add, ← Real.exp_add, Real.exp_le_exp]
  have e1 : 0 ≤ (z k - z i) * (t2 - t1) :=
    mul_nonneg (sub_nonneg.mpr (hmin k)) (sub_nonneg.mpr h12)
  rw [div_add_div _ _ h1.ne' ht2.ne', div_add_div _ _ ht2.ne' h1.ne',
    div_le_div_iff₀ (mul_pos h1 ht2) (mul_pos ht2 h1)]
  nlinarith [mul_nonneg e1 (mul_pos h1 ht2).le]

/-- C6: raising the temperature flattens the softened distribution toward
uniform.  For `0 < t1 < t2`: every pairwise log-odds of the softened
distribution (all of which vanish exactly at the uniform distribution)
shrinks in absolute value; the probability of every maximal-logit class does
not increase; and the probability of every minimal-logit class does not
decrease. -/
theorem c6_higher_temperature_flattens {B nc : ℕ} (m : Logits B nc) (b : Fin B)
    (i j : Fin nc) (t1 t2 : ℝ) (h1 : 0 < t1) (h12 : t1 < t2) :
    |Real.log (softmaxAxis1 (scaleByTemp m t2) b i) -
        Real.log (softmaxAxis1 (scaleByTemp m t2) b j)| ≤
      |Real.log (softmaxAxis1 (scaleByTemp m t1) b i) -
        Real.log (softmaxAxis1 (scaleByTemp m t1) b j)|
    ∧ ((∀ k, m b k ≤ m b i) →
        softmaxAxis1 (scaleByTemp m t2) b i ≤ softmaxAxis1 (scaleByTemp m t1) b i)
    ∧ ((∀ k, m b i ≤ m b k) →
        softmaxAxis1 (scaleByTemp m t1) b i ≤ softmaxAxis1 (scaleByTemp m t2) b i) := by
  have ht2 : 0 < t2 := h1.trans h12
  refine ⟨?_, ?_, ?_⟩
  · rw [log_odds_softened, log_odds_softened, div_sub_div_same, div_sub_div_same,
      abs_div, abs_div, abs_of_pos h1, abs_of_pos ht2, div_le_div_iff₀ ht2 h1]
    exact mul_le_mul_of_nonneg_left h12.le (abs_nonneg _)
  · intro hmax
    show softmax (fun k => m b k / t2) i ≤ softmax (fun k => m b k / t1) i
    exact softmax_temp_at_max (m b) i t1 t2 h1 h12.le hmax
  · intro hmin
    show softmax (fun k => m b k / t1) i ≤ softmax (fun k => m b k / t2) i
    exact softmax_temp_at_min (m b) i t1 t2 h1 h12.le hmin

/-- Witness for C6 at a concrete batch of logits and temperatures 1 and 2. -/
theorem c6_flattening_witness :
    ((0 : ℝ) < 1 ∧ (1 : ℝ) < 2)
    ∧ (|Real.log (softmaxAxis1 (scaleByTemp exampleLogits 2) 0 0) -
          Real.log (softmaxAxis1 (scaleByTemp exampleLogits 2) 0 1)| ≤
        |Real.log (softmaxAxis1 (scaleByTemp exampleLogits 1) 0 0) -
          Real.log (softmaxAxis1 (scaleByTemp exampleLogits 1) 0 1)|
      ∧ ((∀ k, exampleLogits 0 k ≤ exampleLogits 0 0) →
          softmaxAxis1 (scaleByTemp exampleLogits 2) 0 0 ≤
            softmaxAxis1 (scaleByTemp exampleLogits 1) 0 0)
      ∧ ((∀ k, exampleLogits 0 0 ≤ exampleLogits 0 k) →
          softmaxAxis1 (scaleByTemp exampleLogits 1) 0 0 ≤
            softmaxAxis1 (scaleByTemp exampleLogits 2) 0 0)) :=
  ⟨⟨by norm_num, by norm_num⟩,
    c6_higher_temperature_flattens exampleLogits 0 0 1 1 2
      (by norm_num) (by norm_num)⟩

/-- Projection of the dict returned by `train_step`. -/
theorem train_step_results {α β P Q G : Type} {B nc : ℕ}
    (d : Distiller α β P Q G B nc) (x : α) (y : β) :
    (d.train_step (x, y)).results =
      pyDictUpdate
        (pyDict ((d.metrics.map
          (fun m => m.update y (d.student d.studentParams true x))).map
            (fun m => (m.name, m.result))))
        [("student_loss", d.student_loss_fn y (d.student d.studentParams true x)),
          ("distillation_loss", d.distillation_loss_fn
            (softmaxAxis1 (scaleByTemp (d.teacher d.teacherParams false x) d.temperature))
            (softmaxAxis1 (scaleByTemp (d.student d.studentParams true x) d.temperature)))] :=
  rfl

/-- Projection of the dict returned by `test_step`. -/
theorem test_step_results {α β P Q G : Type} {B nc : ℕ}
    (d : Distiller α β P Q G B nc) (x : α) (y : β) :
    (d.test_step (x, y)).results =
      pyDictUpdate
        (pyDict ((d.metrics.map
          (fun m => m.update y (d.student d.studentParams false x))).map
            (fun m => (m.name, m.result))))
        [("student_loss", d.student_loss_fn y (d.student d.studentParams false x))] :=
  rfl

/-- C7: with metric names distinct and distinct from the two loss keys, the
dict returned by `train_step` has exactly one entry per compiled metric,
keyed by the metric's name, followed by the keys `student_loss` and
`distillation_loss`; the dict returned by `test_step` has the per-metric
entries followed by `student_loss` only, and carries no `distillation_loss`
entry. -/
theorem c7_result_dict_keys {α β P Q G : Type} {B nc : ℕ}
    (d : Distiller α β P Q G B nc) (x : α) (y : β)
    (h : ((d.metrics.map (fun m => m.name)) ++
      ["student_loss", "distillation_loss"]).Nodup) :
    pyKeys (d.train_step (x, y)).results =
      d.metrics.map (fun m => m.name) ++ ["student_loss", "distillation_loss"]
    ∧ pyKeys (d.test_step (x, y)).results =
      d.metrics.map (fun m => m.name) ++ ["student_loss"]
    ∧ "distillation_loss" ∉ pyKeys (d.test_step (x, y)).results := by
  have hnames : (d.metrics.map (fun m => m.name)).Nodup := (List.nodup_append.mp h).1
  have hkeys : ∀ pred : Logits B nc,
      ((d.metrics.map (fun m => m.update y pred)).map
        (fun m => (m.name, m.result))).map Prod.fst =
        d.metrics.map (fun m => m.name) := by
    intro pred
    simp [List.map_map, Function.comp, KerasMetric.update]
  have main : ∀ (pred : Logits B nc) (tailPairs : List (String × ℝ)),
      (d.metrics.map (fun m => m.name) ++ tailPairs.map Prod.fst).Nodup →
      pyKeys (pyDictUpdate (pyDict ((d.metrics.map (fun m => m.update y pred)).map
        (fun m => (m.name, m.result)))) tailPairs) =
        d.metrics.map (fun m => m.name) ++ tailPairs.map Prod.fst := by
    intro pred tailPairs htail
    rw [pyDict_of_nodup _ (by rw [hkeys]; exact hnames),
      pyDictUpdate_of_nodup tailPairs _ (by rw [hkeys]; exact htail)]
    simp [pyKeys, hkeys, KerasMetric.update]
  have hsubTest : (d.metrics.map (fun m => m.name) ++ ["student_loss"]).Nodup := by
    refine List.Nodup.sublist ?_ h
    exact List.Sublist.append_left (List.Sublist.cons₂ _ (List.nil_sublist _)) _
  have h1 : pyKeys (d.train_step (x, y)).results =
      d.metrics.map (fun m => m.name) ++ ["student_loss", "distillation_loss"] := by
    rw [train_step_results]
    simpa using main (d.student d.studentParams true x)
      [("student_loss", d.student_loss_fn y (d.student d.studentParams true x)),
        ("distillation_loss", d.distillation_loss_fn
          (softmaxAxis1 (scaleByTemp (d.teacher d.teacherParams false x) d.temperature))
          (softmaxAxis1 (scaleByTemp (d.student d.studentParams true x) d.temperature)))]
      (by simpa using h)
  have h2 : pyKeys (d.test_step (x, y)).results =
      d.metrics.map (fun m => m.name) ++ ["student_loss"] := by
    rw [test_step_results]
    simpa using main (d.student d.studentParams false x)
      [("student_loss", d.student_loss_fn y (d.student d.studentParams false x))]
      (by simpa using hsubTest)
  refine ⟨h1, h2, ?_⟩
  rw [h2]
  have hdl : "distillation_loss" ∉ d.metrics.map (fun m => m.name) := fun hmem =>
    (List.nodup_append.mp h).2.2 hmem (by simp)
  simp [List.mem_append, hdl]

/-- Witness for C7 at the concrete object with one accuracy metric. -/
theorem c7_result_dict_keys_witness :
    (((exampleDistiller.metrics.map (fun m => m.name)) ++
      ["student_loss", "distillation_loss"]).Nodup)
    ∧ (pyKeys (exampleDistiller.train_step ((), ())).results =
        exampleDistiller.metrics.map (fun m => m.name) ++
          ["student_loss", "distillation_loss"]
      ∧ pyKeys (exampleDistiller.test_step ((), ())).results =
        exampleDistiller.metrics.map (fun m => m.name) ++ ["student_loss"]
      ∧ "distillation_loss" ∉ pyKeys (exampleDistiller.test_step ((), ())).results) :=
  ⟨by simp [exampleDistiller, exampleMetric],
    c7_result_dict_keys exampleDistiller () ()
      (by simp [exampleDistiller, exampleMetric])⟩

/-- C8: neither step validates inputs, catches errors, retries or recovers.
In the exception-aware model, each step either completes with a result, or
returns unchanged the very exception raised by one of the framework calls it
makes (forward passes, losses, gradients, optimizer); there is no other
outcome and no handling branch. -/
theorem c8_steps_propagate_framework_errors {ε α β P Q G : Type} {B nc : ℕ}
    (d : ExnDistiller ε α β P Q G B nc) (x : α) (y : β) :
    ((∃ r, d.train_step (x, y) = Except.ok r) ∨
      (∃ e, d.train_step (x, y) = Except.error e ∧ d.trainStepRaises x y e))
    ∧ ((∃ r, d.test_step (x, y) = Except.ok r) ∨
      (∃ e, d.test_step (x, y) = Except.error e ∧ d.testStepRaises x y e)) := by
  constructor
  · rcases htp : d.teacher d.teacherParams false x with e | tp
    · exact Or.inr ⟨e, by simp [ExnDistiller.train_step, htp, Bind.bind,
        Except.bind, Functor.map, Except.map, Pure.pure, Except.pure],
        Or.inl htp⟩
    · rcases hsp : d.student d.studentParams true x with e | sp
      · exact Or.inr ⟨e, by simp [ExnDistiller.train_step, htp, hsp, Bind.bind,
          Except.bind, Functor.map, Except.map, Pure.pure, Except.pure],
          Or.inr (Or.inl hsp)⟩
      · rcases hsl : d.student_loss_fn y sp with e | sl
        · exact Or.inr ⟨e, by simp [ExnDistiller.train_step, htp, hsp, hsl,
            Bind.bind, Except.bind, Functor.map, Except.map, Pure.pure,
            Except.pure],
            Or.inr (Or.inr (Or.inl ⟨sp, hsp, hsl⟩))⟩
        · rcases hdl : d.distillation_loss_fn
              (softmaxAxis1 (scaleByTemp tp d.temperature))
              (softmaxAxis1 (scaleByTemp sp d.temperature)) with e | dl
          · exact Or.inr ⟨e, by simp [ExnDistiller.train_step, htp, hsp, hsl,
              hdl, Bind.bind, Except.bind, Functor.map, Except.map, Pure.pure,
              Except.pure],
              Or.inr (Or.inr (Or.inr (Or.inl ⟨tp, sp, htp, hsp, hdl⟩)))⟩
          · rcases hg : d.gradientTape (d.tapeLoss x y) d.studentParams with e | g
            · exact Or.inr ⟨e, by simp [ExnDistiller.train_step, htp, hsp, hsl,
                hdl, hg, Bind.bind, Except.bind, Functor.map, Except.map,
                Pure.pure, Except.pure],
                Or.inr (Or.inr (Or.inr (Or.inr (Or.inl hg))))⟩
            · rcases ho : d.optimizer g d.studentParams with e | p2
              · exact Or.inr ⟨e, by simp [ExnDistiller.train_step, htp, hsp,
                  hsl, hdl, hg, ho, Bind.bind, Except.bind, Functor.map,
                  Except.map, Pure.pure, Except.pure],
                  Or.inr (Or.inr (Or.inr (Or.inr (Or.inr ⟨g, hg, ho⟩))))⟩
              · exact Or.inl (by simp [ExnDistiller.train_step, htp, hsp, hsl,
                  hdl, hg, ho, Bind.bind, Except.bind, Functor.map, Except.map,
                  Pure.pure, Except.pure])
  · rcases hyp : d.student d.studentParams false x with e | yp
    · exact Or.inr ⟨e, by simp [ExnDistiller.test_step, hyp, Bind.bind,
        Except.bind, Functor.map, Except.map, Pure.pure, Except.pure],
        Or.inl hyp⟩
    · rcases hsl : d.student_loss_fn y yp with e | sl
      · exact Or.inr ⟨e, by simp [ExnDistiller.test_step, hyp, hsl, Bind.bind,
          Except.bind, Functor.map, Except.map, Pure.pure, Except.pure],
          Or.inr ⟨yp, hyp, hsl⟩⟩
      · exact Or.inl (by simp [ExnDistiller.test_step, hyp, hsl, Bind.bind,
          Except.bind, Functor.map, Except.map, Pure.pure, Except.pure])
